import Mathlib

/-!
Shallow embedding of the dataverse client core:
  * `save_event` — the commit-acceptance protocol of
    `file-system/src/file/client.rs` (impl `StreamEventSaver for Client`),
  * `load_file` / `load_files` — the typed file/folder resolution of the same
    file (impl `StreamFileTrait for Client`),
  * `load_cid` / `block_upload` — the LRU-fronted block cache of
    `ceramic/src/kubo/cache.rs` (impl `CidLoader` / `BlockUploader for Cached`),
  * `CachedStreamLoader.load_stream_state` of `ceramic/src/stream/operator.rs`.

Collaborators that live outside these files (the block transport, the model
registry, signature verification, the state fold `StreamRec::state`, the
`StreamFile` constructors) are passed in as explicit environment functions;
all control flow of the embedded functions is translated line by line from
the source.  Side effects (store loads, chain loads, signature verification,
persists, dispatch enqueues) are recorded in an explicit effect log so that
"no persist happened" is a provable statement.
-/

/-- Content identifier: opaque content address (`cid::Cid`). -/
abbrev Cid := Nat

/-- Opaque structured value (`serde_json::Value`). -/
abbrev Json := Nat

/-- `ceramic_core::StreamId`: stream type tag plus genesis CID. -/
structure StreamIdM where
  ty : Nat
  cid : Cid
deriving DecidableEq, Repr

/-- The signed payload of a commit; only the fields the client inspects are
kept (`signed.is_gensis()`). -/
structure SignedValue where
  isGenesis : Bool
deriving DecidableEq, Repr

/-- `EventValue`: a commit is either client-signed or an anchor proof. -/
inductive EventValue where
  | signed (s : SignedValue)
  | anchor (proof : Nat)
deriving DecidableEq, Repr

/-- `Event`: one commit of a stream log.  `prev` is the decoded predecessor
address from the payload (`event.prev()`). -/
structure Event where
  cid : Cid
  prev : Option Cid
  value : EventValue
deriving DecidableEq, Repr

/-- Derived stream state, as consumed by `save_event`
(`state.must_model()`, `state.controllers()`, `state.content`). -/
structure StreamState where
  model : Option StreamIdM
  controllers : List String
  content : Json
deriving DecidableEq, Repr

/-- `dataverse_core::stream::StreamRec`: the persisted per-stream record. -/
structure StreamRec where
  dappId : Nat
  streamType : Nat
  tip : Cid
  model : Option StreamIdM
  account : Option String
  content : Json
deriving DecidableEq, Repr

/-- `VerifyOption` as built by `save_event`. -/
inductive VerifyOption where
  | resourceModelsContain (model : StreamIdM)
  | expirationTimeBefore (now : Nat)
deriving DecidableEq, Repr

/-- The distinct failure exits of `save_event` (each `bail!` / `?` site). -/
inductive SaveError where
  | dappCeramicErr
  | unknownStream
  | streamNewErr
  | loadEventsErr
  | stateErr
  | missingPrev
  | mustModelErr
  | verifyFailed
  | saveStreamErr
  | uploadEventErr
  | anchorNotSupported
deriving DecidableEq, Repr

/-- Environment of collaborators used by `save_event`; these live outside
`client.rs` (registry, network loader, `StreamRec::new`, `StreamRec::state`,
`verify_signature`, the store write, the upload dispatcher). -/
structure SaveEnv where
  getDappCeramic : Nat → Except Unit Nat
  loadEvents : Nat → StreamIdM → Option Cid → Except Unit (List Event)
  streamNew : Nat → Nat → Event → Except Unit StreamRec
  stateOf : Nat → List Event → Except Unit StreamState
  verifySignature : Event → List VerifyOption → Bool
  now : Nat
  saveOk : StreamRec → Bool
  uploadOk : Event → Bool

/-- Log of the observable side effects of one or more `save_event` calls. -/
structure Effects where
  storeLoads : Nat
  loadEventsArgs : List (Option Cid)
  verifyCalls : Nat
  saveCalls : List StreamRec
  uploadCalls : List Event
deriving DecidableEq, Repr

def Effects.empty : Effects := ⟨0, [], 0, [], []⟩

/-- Mutable world: the stream store contents plus the effect log. -/
structure SaveWorld where
  store : List (StreamIdM × StreamRec)
  fx : Effects
deriving DecidableEq, Repr

/-- `stream_store.load_stream`: lookup of the persisted record. -/
def storeLookup (store : List (StreamIdM × StreamRec)) (sid : StreamIdM) : Option StreamRec :=
  (store.find? (fun p => p.1 == sid)).map (fun p => p.2)

/-- `stream_store.save_stream`: upsert of the persisted record. -/
def storeInsert (store : List (StreamIdM × StreamRec)) (sid : StreamIdM) (s : StreamRec) :
    List (StreamIdM × StreamRec) :=
  (sid, s) :: store.filter (fun p => p.1 != sid)

/-- The record written back at step 6:
`Stream { model, account: controllers[0], tip: commit cid, content, ..stream }`. -/
def acceptedRec (stream : StreamRec) (event : Event) (state : StreamState)
    (model : StreamIdM) : StreamRec :=
  { stream with
    model := some model,
    account := state.controllers.head?,
    tip := event.cid,
    content := state.content }

/-- Steps 4-7 of `save_event`: append already done by the caller, fold the
chain, resolve the model, verify the signature, persist, dispatch the
upload. -/
def saveEventVerify (env : SaveEnv) (w : SaveWorld) (sid : StreamIdM)
    (event : Event) (stream : StreamRec) (commits2 : List Event) :
    Except SaveError StreamState × SaveWorld :=
  match env.stateOf stream.streamType commits2 with
  | .error _ => (.error .stateErr, w)
  | .ok state =>
    match state.model with
    | none => (.error .mustModelErr, w)
    | some model =>
      let w := { w with fx := { w.fx with verifyCalls := w.fx.verifyCalls + 1 } }
      let opts := [VerifyOption.resourceModelsContain model,
                   VerifyOption.expirationTimeBefore env.now]
      if !(env.verifySignature event opts) then (.error .verifyFailed, w)
      else
        let stream2 : StreamRec := acceptedRec stream event state model
        let w := { w with fx := { w.fx with saveCalls := w.fx.saveCalls ++ [stream2] } }
        if !(env.saveOk stream2) then (.error .saveStreamErr, w)
        else
          let w := { w with store := storeInsert w.store sid stream2 }
          let w := { w with fx := { w.fx with uploadCalls := w.fx.uploadCalls ++ [event] } }
          if !(env.uploadOk event) then (.error .uploadEventErr, w)
          else (.ok state, w)

/-- Steps 2-3 of `save_event`: the duplicate short-circuit and the
predecessor-linkage check, then the append. -/
def saveEventRest (env : SaveEnv) (w : SaveWorld) (sid : StreamIdM)
    (event : Event) (stream : StreamRec) (commits : List Event) :
    Except SaveError StreamState × SaveWorld :=
  if commits.any (fun e => e.cid == event.cid) then
    ((env.stateOf stream.streamType commits).mapError (fun _ => SaveError.stateErr), w)
  else
    match event.prev with
    | some p =>
      if commits.all (fun e => e.cid != p) then (.error .missingPrev, w)
      else saveEventVerify env w sid event stream (commits ++ [event])
    | none => saveEventVerify env w sid event stream (commits ++ [event])

/-- `Client::save_event` of `file-system/src/file/client.rs`. -/
def save_event (env : SaveEnv) (w : SaveWorld) (dappId : Nat) (sid : StreamIdM)
    (event : Event) : Except SaveError StreamState × SaveWorld :=
  match env.getDappCeramic dappId with
  | .error _ => (.error .dappCeramicErr, w)
  | .ok ceramic =>
    match event.value with
    | .signed sg =>
      let w := { w with fx := { w.fx with storeLoads := w.fx.storeLoads + 1 } }
      match storeLookup w.store sid with
      | some stream =>
        let w := { w with fx :=
          { w.fx with loadEventsArgs := w.fx.loadEventsArgs ++ [some stream.tip] } }
        match env.loadEvents ceramic sid (some stream.tip) with
        | .error _ => (.error .loadEventsErr, w)
        | .ok commits => saveEventRest env w sid event stream commits
      | none =>
        if !sg.isGenesis then (.error .unknownStream, w)
        else
          match env.streamNew dappId sid.ty event with
          | .error _ => (.error .streamNewErr, w)
          | .ok stream => saveEventRest env w sid event stream []
    | .anchor _ => (.error .anchorNotSupported, w)

/-- The predecessor-linkage condition of step 3: either the commit declares no
`prev`, or the declared `prev` appears among the loaded commits. -/
def linkagePasses (event : Event) (commits : List Event) : Bool :=
  match event.prev with
  | some p => commits.any (fun e => e.cid == p)
  | none => true

theorem storeLookup_insert (st : List (StreamIdM × StreamRec)) (sid : StreamIdM)
    (s : StreamRec) : storeLookup (storeInsert st sid s) sid = some s := by
  simp [storeLookup, storeInsert]

/-- C3: a signed commit whose declared `prev` is absent from the loaded chain
is rejected with the missing-predecessor error before any signature
verification, and nothing is persisted or dispatched; this holds whether the
chain was loaded from a persisted tip or is the empty chain of a fresh
genesis record, and regardless of the verifier. -/
theorem save_event_missing_prev_rejected (env : SaveEnv) (w : SaveWorld) (dappId c : Nat) (sid : StreamIdM)
    (ev : Event) (sg : SignedValue) (stream : StreamRec) (commits : List Event) (p : Cid)
    (hc : env.getDappCeramic dappId = .ok c)
    (hv : ev.value = .signed sg)
    (hpath : storeLookup w.store sid = some stream ∧
        env.loadEvents c sid (some stream.tip) = .ok commits ∨
      storeLookup w.store sid = none ∧ sg.isGenesis = true ∧
        env.streamNew dappId sid.ty ev = .ok stream ∧ commits = [])
    (hdup : commits.any (fun e => e.cid == ev.cid) = false)
    (hprev : ev.prev = some p)
    (hmiss : commits.all (fun e => e.cid != p) = true) :
    (save_event env w dappId sid ev).1 = .error .missingPrev ∧
    (save_event env w dappId sid ev).2.store = w.store ∧
    (save_event env w dappId sid ev).2.fx.verifyCalls = w.fx.verifyCalls ∧
    (save_event env w dappId sid ev).2.fx.saveCalls = w.fx.saveCalls ∧
    (save_event env w dappId sid ev).2.fx.uploadCalls = w.fx.uploadCalls := by
  rcases hpath with ⟨hs, hl⟩ | ⟨hs, hg, hn, hcm⟩
  · simp [save_event, saveEventRest, hc, hv, hs, hl, hdup, hprev, hmiss]
  · subst hcm
    simp [save_event, saveEventRest, hc, hv, hs, hg, hn, hdup, hprev, hmiss]

/-- Frame lemma: steps 4-7 never touch the chain-load log. -/
theorem saveEventVerify_loadEventsArgs (env : SaveEnv) (w : SaveWorld) (sid : StreamIdM)
    (ev : Event) (stream : StreamRec) (commits2 : List Event) :
    (saveEventVerify env w sid ev stream commits2).2.fx.loadEventsArgs =
      w.fx.loadEventsArgs := by
  unfold saveEventVerify
  rcases h1 : env.stateOf stream.streamType commits2 with e | state <;> simp only [h1]
  rcases h2 : state.model with _ | m <;> simp only [h2]
  split
  · rfl
  · split
    · rfl
    · split <;> rfl

/-- Frame lemma: steps 2-3 never touch the chain-load log. -/
theorem saveEventRest_loadEventsArgs (env : SaveEnv) (w : SaveWorld) (sid : StreamIdM)
    (ev : Event) (stream : StreamRec) (commits : List Event) :
    (saveEventRest env w sid ev stream commits).2.fx.loadEventsArgs =
      w.fx.loadEventsArgs := by
  unfold saveEventRest
  split
  · rcases env.stateOf stream.streamType commits with e | st <;> rfl
  · split
    · split
      · rfl
      · exact saveEventVerify_loadEventsArgs ..
    · exact saveEventVerify_loadEventsArgs ..

/-- Steps 4-7 can fail, but never with the unknown-stream rejection. -/
theorem saveEventVerify_ne_unknownStream (env : SaveEnv) (w : SaveWorld) (sid : StreamIdM)
    (ev : Event) (stream : StreamRec) (commits2 : List Event) :
    (saveEventVerify env w sid ev stream commits2).1 ≠ .error .unknownStream := by
  unfold saveEventVerify
  rcases h1 : env.stateOf stream.streamType commits2 with e | state <;> simp only [h1]
  · simp
  rcases h2 : state.model with _ | m <;> simp only [h2]
  · simp
  split
  · simp
  · split
    · simp
    · split <;> simp

/-- Steps 2-3 can fail, but never with the unknown-stream rejection. -/
theorem saveEventRest_ne_unknownStream (env : SaveEnv) (w : SaveWorld) (sid : StreamIdM)
    (ev : Event) (stream : StreamRec) (commits : List Event) :
    (saveEventRest env w sid ev stream commits).1 ≠ .error .unknownStream := by
  unfold saveEventRest
  split
  · rcases env.stateOf stream.streamType commits with e | st <;> simp [Except.mapError]
  · split
    · split
      · simp
      · exact saveEventVerify_ne_unknownStream env _ sid ev stream _
    · exact saveEventVerify_ne_unknownStream env _ sid ev stream _

/-- C4: an anchor event is rejected outright: the result is an error, the
world (store and every effect counter) is untouched, and whenever the dapp
registry lookup succeeds the error is exactly `anchorNotSupported`. -/
theorem save_event_anchor_rejected (env : SaveEnv) (w : SaveWorld) (dappId : Nat)
    (sid : StreamIdM) (ev : Event) (pf : Nat) (h : ev.value = .anchor pf) :
    (save_event env w dappId sid ev).1.isOk = false ∧
    (save_event env w dappId sid ev).2 = w ∧
    (∀ c, env.getDappCeramic dappId = .ok c →
      (save_event env w dappId sid ev).1 = .error .anchorNotSupported) := by
  rcases hC : env.getDappCeramic dappId with e | c <;>
    simp [save_event, h, hC, Except.isOk, Except.toBool]

/-- C5: with no persisted record a non-genesis signed commit fails with
`unknownStream` (nothing persisted or dispatched); with no record but a
genesis commit the call gets past step 1 (it never fails with
`unknownStream`); with a record present the chain is loaded from the
persisted tip forward. -/
theorem save_event_unknown_stream (env : SaveEnv) (w : SaveWorld) (dappId c : Nat)
    (sid : StreamIdM) (ev : Event) (sg : SignedValue)
    (hc : env.getDappCeramic dappId = .ok c)
    (hv : ev.value = .signed sg) :
    (storeLookup w.store sid = none → sg.isGenesis = false →
      (save_event env w dappId sid ev).1 = .error .unknownStream ∧
      (save_event env w dappId sid ev).2.store = w.store ∧
      (save_event env w dappId sid ev).2.fx.saveCalls = w.fx.saveCalls ∧
      (save_event env w dappId sid ev).2.fx.uploadCalls = w.fx.uploadCalls) ∧
    (storeLookup w.store sid = none → sg.isGenesis = true →
      (save_event env w dappId sid ev).1 ≠ .error .unknownStream) ∧
    (∀ stream, storeLookup w.store sid = some stream →
      (save_event env w dappId sid ev).2.fx.loadEventsArgs =
        w.fx.loadEventsArgs ++ [some stream.tip]) := by
  refine ⟨?_, ?_, ?_⟩
  · intro hs hg
    simp [save_event, hc, hv, hs, hg]
  · intro hs hg
    rcases hn : env.streamNew dappId sid.ty ev with e | stream
    · simp [save_event, hc, hv, hs, hg, hn]
    · simp only [save_event, hc, hv, hs, hg, hn]
      simp only [Bool.not_true, Bool.false_eq_true, if_false]
      exact saveEventRest_ne_unknownStream env _ sid ev stream []
  · intro stream hs
    simp only [save_event, hc, hv, hs]
    rcases hl : env.loadEvents c sid (some stream.tip) with e | commits
    · simp [hl]
    · simp only [hl]
      rw [saveEventRest_loadEventsArgs]

theorem all_ne_false_of_any_eq (commits : List Event) (p : Cid)
    (h : commits.any (fun e => e.cid == p) = true) :
    commits.all (fun e => e.cid != p) = false := by
  cases hall : commits.all (fun e => e.cid != p) with
  | false => rfl
  | true =>
    exfalso
    simp only [List.all_eq_true, bne_iff_ne, ne_eq] at hall
    simp only [List.any_eq_true, beq_iff_eq] at h
    obtain ⟨e, he, hpe⟩ := h
    exact hall e he hpe

/-- C2: when the chain is loaded, the commit is new, its linkage holds, the
candidate state folds with a model, and signature verification fails, the
whole call errors and neither a store save nor an upload dispatch happened;
the store contents are untouched. -/
theorem save_event_verify_failure_atomic (env : SaveEnv) (w : SaveWorld) (dappId c : Nat)
    (sid : StreamIdM) (ev : Event) (sg : SignedValue) (stream : StreamRec)
    (commits : List Event) (state : StreamState) (m : StreamIdM)
    (hc : env.getDappCeramic dappId = .ok c)
    (hv : ev.value = .signed sg)
    (hpath : storeLookup w.store sid = some stream ∧
        env.loadEvents c sid (some stream.tip) = .ok commits ∨
      storeLookup w.store sid = none ∧ sg.isGenesis = true ∧
        env.streamNew dappId sid.ty ev = .ok stream ∧ commits = [])
    (hdup : commits.any (fun e => e.cid == ev.cid) = false)
    (hlink : linkagePasses ev commits = true)
    (hstate : env.stateOf stream.streamType (commits ++ [ev]) = .ok state)
    (hm : state.model = some m)
    (hverify : env.verifySignature ev
      [.resourceModelsContain m, .expirationTimeBefore env.now] = false) :
    (save_event env w dappId sid ev).1 = .error .verifyFailed ∧
    (save_event env w dappId sid ev).2.store = w.store ∧
    (save_event env w dappId sid ev).2.fx.saveCalls = w.fx.saveCalls ∧
    (save_event env w dappId sid ev).2.fx.uploadCalls = w.fx.uploadCalls := by
  have hrest : ∀ w' : SaveWorld,
      (saveEventRest env w' sid ev stream commits).1 = .error .verifyFailed ∧
      (saveEventRest env w' sid ev stream commits).2.store = w'.store ∧
      (saveEventRest env w' sid ev stream commits).2.fx.saveCalls = w'.fx.saveCalls ∧
      (saveEventRest env w' sid ev stream commits).2.fx.uploadCalls =
        w'.fx.uploadCalls := by
    intro w'
    rcases hp : ev.prev with _ | p
    · simp [saveEventRest, saveEventVerify, hdup, hp, hstate, hm, hverify]
    · have hany : commits.any (fun e => e.cid == p) = true := by
        simpa [linkagePasses, hp] using hlink
      simp [saveEventRest, saveEventVerify, hdup, hp,
        all_ne_false_of_any_eq commits p hany, hstate, hm, hverify]
  rcases hpath with ⟨hs, hl⟩ | ⟨hs, hg, hn, hcm⟩
  · simp only [save_event, hc, hv, hs, hl]
    exact hrest _
  · subst hcm
    simp only [save_event, hc, hv, hs, hg, hn, Bool.not_true, Bool.false_eq_true, if_false]
    exact hrest _

/-- C1: (a) a commit whose address already appears in the loaded chain makes
`save_event` return the state derived from that chain, with no signature
verification, no store save and no upload dispatch, leaving the store
untouched; (b) accepting the same commit twice returns the same state both
times and performs exactly one persist, one upload enqueue and one
verification in total. -/
theorem save_event_idempotent :
    (∀ (env : SaveEnv) (w : SaveWorld) (dappId c : Nat) (sid : StreamIdM) (ev : Event)
        (sg : SignedValue) (stream : StreamRec) (commits : List Event),
      env.getDappCeramic dappId = .ok c →
      ev.value = .signed sg →
      storeLookup w.store sid = some stream →
      env.loadEvents c sid (some stream.tip) = .ok commits →
      commits.any (fun e => e.cid == ev.cid) = true →
      (save_event env w dappId sid ev).1 =
        (env.stateOf stream.streamType commits).mapError (fun _ => SaveError.stateErr) ∧
      (save_event env w dappId sid ev).2.store = w.store ∧
      (save_event env w dappId sid ev).2.fx.verifyCalls = w.fx.verifyCalls ∧
      (save_event env w dappId sid ev).2.fx.saveCalls = w.fx.saveCalls ∧
      (save_event env w dappId sid ev).2.fx.uploadCalls = w.fx.uploadCalls) ∧
    (∀ (env : SaveEnv) (w : SaveWorld) (dappId c : Nat) (sid : StreamIdM) (ev : Event)
        (sg : SignedValue) (stream : StreamRec) (commits : List Event)
        (state : StreamState) (m : StreamIdM),
      env.getDappCeramic dappId = .ok c →
      ev.value = .signed sg →
      storeLookup w.store sid = some stream →
      env.loadEvents c sid (some stream.tip) = .ok commits →
      commits.any (fun e => e.cid == ev.cid) = false →
      linkagePasses ev commits = true →
      env.stateOf stream.streamType (commits ++ [ev]) = .ok state →
      state.model = some m →
      env.verifySignature ev
        [.resourceModelsContain m, .expirationTimeBefore env.now] = true →
      (∀ s, env.saveOk s = true) →
      (∀ e, env.uploadOk e = true) →
      env.loadEvents c sid (some ev.cid) = .ok (commits ++ [ev]) →
      w.fx = Effects.empty →
      (save_event env w dappId sid ev).1 = .ok state ∧
      (save_event env (save_event env w dappId sid ev).2 dappId sid ev).1 = .ok state ∧
      (save_event env (save_event env w dappId sid ev).2 dappId sid ev).2.fx.saveCalls.length
        = 1 ∧
      (save_event env (save_event env w dappId sid ev).2 dappId sid ev).2.fx.uploadCalls.length
        = 1 ∧
      (save_event env (save_event env w dappId sid ev).2 dappId sid ev).2.fx.verifyCalls
        = 1) := by
  constructor
  · intro env w dappId c sid ev sg stream commits hc hv hs hl hdup
    simp [save_event, saveEventRest, hc, hv, hs, hl, hdup]
  · intro env w dappId c sid ev sg stream commits state m hc hv hs hl hdup hlink hstate hm
      hverify hsaveOk hupOk hl2 hfx
    have h1 : save_event env w dappId sid ev =
        (.ok state,
          ⟨storeInsert w.store sid (acceptedRec stream ev state m),
          { storeLoads := w.fx.storeLoads + 1,
            loadEventsArgs := w.fx.loadEventsArgs ++ [some stream.tip],
            verifyCalls := w.fx.verifyCalls + 1,
            saveCalls := w.fx.saveCalls ++ [acceptedRec stream ev state m],
            uploadCalls := w.fx.uploadCalls ++ [ev] }⟩) := by
      rcases hp : ev.prev with _ | p
      · simp [save_event, saveEventRest, saveEventVerify, hc, hv, hs, hl, hdup, hp,
          hstate, hm, hverify, hsaveOk, hupOk]
      · have hany : commits.any (fun e => e.cid == p) = true := by
          simpa [linkagePasses, hp] using hlink
        simp [save_event, saveEventRest, saveEventVerify, hc, hv, hs, hl, hdup, hp,
          all_ne_false_of_any_eq commits p hany, hstate, hm, hverify, hsaveOk, hupOk]
    rw [h1]
    have hs2 : storeLookup
        (storeInsert w.store sid (acceptedRec stream ev state m)) sid =
        some (acceptedRec stream ev state m) :=
      storeLookup_insert ..
    have hdup2 : (commits ++ [ev]).any (fun e => e.cid == ev.cid) = true := by
      simp
    simp only [acceptedRec] at hs2
    simp [save_event, saveEventRest, hc, hv, hs2, hl2, hdup2, hstate, hfx,
      Effects.empty, acceptedRec, Except.mapError]

/-- Concrete genesis commit used by the witnesses. -/
def eGen : Event := ⟨1, none, .signed ⟨true⟩⟩

/-- Concrete follow-up commit linking to `eGen`. -/
def eNext : Event := ⟨2, some 1, .signed ⟨false⟩⟩

/-- Concrete commit whose `prev` points at an unknown address. -/
def eBad : Event := ⟨3, some 99, .signed ⟨false⟩⟩

/-- Concrete anchor commit. -/
def eAnchor : Event := ⟨4, none, .anchor 0⟩

def sidA : StreamIdM := ⟨3, 1⟩

def sidB : StreamIdM := ⟨3, 9⟩

def streamA : StreamRec := ⟨0, 3, 1, none, none, 0⟩

/-- Concrete collaborator environment for the witnesses: the chain at tip 1
is `[eGen]`, at tip 2 it is `[eGen, eNext]`; everything verifies. -/
def envA : SaveEnv where
  getDappCeramic := fun _ => .ok 7
  loadEvents := fun _ _ t =>
    match t with
    | some 1 => .ok [eGen]
    | some 2 => .ok [eGen, eNext]
    | _ => .ok []
  streamNew := fun d ty e => .ok ⟨d, ty, e.cid, none, none, 0⟩
  stateOf := fun _ commits => .ok ⟨some ⟨2, 5⟩, ["did:key:z"], commits.length⟩
  verifySignature := fun _ _ => true
  now := 0
  saveOk := fun _ => true
  uploadOk := fun _ => true

/-- `envA` with a verifier that rejects every signature. -/
def envAF : SaveEnv := { envA with verifySignature := fun _ _ => false }

def wA : SaveWorld := ⟨[(sidA, streamA)], Effects.empty⟩

theorem save_event_idempotent_witness :
    (save_event envA wA 0 sidA eNext).1 = .ok ⟨some ⟨2, 5⟩, ["did:key:z"], 2⟩ ∧
    (save_event envA (save_event envA wA 0 sidA eNext).2 0 sidA eNext).1 =
      .ok ⟨some ⟨2, 5⟩, ["did:key:z"], 2⟩ ∧
    (save_event envA (save_event envA wA 0 sidA eNext).2 0 sidA eNext).2.fx.saveCalls.length
      = 1 ∧
    (save_event envA (save_event envA wA 0 sidA eNext).2 0 sidA eNext).2.fx.uploadCalls.length
      = 1 ∧
    (save_event envA (save_event envA wA 0 sidA eNext).2 0 sidA eNext).2.fx.verifyCalls
      = 1 := by
  have h := save_event_idempotent.2 envA wA 0 7 sidA eNext ⟨false⟩ streamA [eGen]
    ⟨some ⟨2, 5⟩, ["did:key:z"], 2⟩ ⟨2, 5⟩ rfl rfl (by decide) rfl (by decide) (by decide)
    rfl rfl rfl (fun _ => rfl) (fun _ => rfl) rfl rfl
  exact h

theorem save_event_verify_failure_atomic_witness :
    (save_event envAF wA 0 sidA eNext).1 = .error .verifyFailed ∧
    (save_event envAF wA 0 sidA eNext).2.store = wA.store ∧
    (save_event envAF wA 0 sidA eNext).2.fx.saveCalls = wA.fx.saveCalls ∧
    (save_event envAF wA 0 sidA eNext).2.fx.uploadCalls = wA.fx.uploadCalls :=
  save_event_verify_failure_atomic envAF wA 0 7 sidA eNext ⟨false⟩ streamA [eGen]
    ⟨some ⟨2, 5⟩, ["did:key:z"], 2⟩ ⟨2, 5⟩ rfl rfl (Or.inl ⟨by decide, rfl⟩)
    (by decide) (by decide) rfl rfl rfl

theorem save_event_missing_prev_rejected_witness :
    (save_event envA wA 0 sidA eBad).1 = .error .missingPrev ∧
    (save_event envA wA 0 sidA eBad).2.store = wA.store ∧
    (save_event envA wA 0 sidA eBad).2.fx.verifyCalls = wA.fx.verifyCalls ∧
    (save_event envA wA 0 sidA eBad).2.fx.saveCalls = wA.fx.saveCalls ∧
    (save_event envA wA 0 sidA eBad).2.fx.uploadCalls = wA.fx.uploadCalls :=
  save_event_missing_prev_rejected envA wA 0 7 sidA eBad ⟨false⟩ streamA [eGen] 99
    rfl rfl (Or.inl ⟨by decide, rfl⟩) (by decide) rfl (by decide)

theorem save_event_anchor_rejected_witness :
    (save_event envA wA 0 sidA eAnchor).1.isOk = false ∧
    (save_event envA wA 0 sidA eAnchor).2 = wA ∧
    (save_event envA wA 0 sidA eAnchor).1 = .error .anchorNotSupported := by
  have h := save_event_anchor_rejected envA wA 0 sidA eAnchor 0 rfl
  exact ⟨h.1, h.2.1, h.2.2 7 rfl⟩

theorem save_event_unknown_stream_witness :
    (save_event envA wA 0 sidB eNext).1 = .error .unknownStream ∧
    (save_event envA wA 0 sidB eGen).1 ≠ .error .unknownStream ∧
    (save_event envA wA 0 sidA eGen).2.fx.loadEventsArgs = [some 1] := by
  refine ⟨((save_event_unknown_stream envA wA 0 7 sidB eNext ⟨false⟩ rfl rfl).1
    (by decide) rfl).1, ?_, ?_⟩
  · exact (save_event_unknown_stream envA wA 0 7 sidB eGen ⟨true⟩ rfl rfl).2.1
      (by decide) rfl
  · have h := (save_event_unknown_stream envA wA 0 7 sidA eGen ⟨true⟩ rfl rfl).2.2
      streamA (by decide)
    simpa [wA, Effects.empty, streamA] using h

/-- Collaborators of the `Cached` kubo client (`ceramic/src/kubo/cache.rs`):
the underlying HTTP client and the durable task queue. -/
structure KuboEnv where
  clientLoadCid : Cid → Except Unit (List Nat)
  insertTaskOk : Cid → Bool

/-- State of a `Cached` value: LRU capacity, the LRU cache contents with the
most recently used entry first, the successfully enqueued `BlockUpload`
tasks, and a log of remote fetches performed through `client.load_cid`. -/
structure CacheState where
  cap : Nat
  cache : List (Cid × List Nat)
  queueTasks : List (Cid × List Nat)
  remoteFetches : List Cid
deriving DecidableEq, Repr

/-- `Cached::new`: fails with an invalid-configuration error when the
requested capacity is zero (`NonZeroUsize::new`). -/
def cachedNew (cacheSize : Nat) : Except Unit CacheState :=
  if cacheSize = 0 then .error () else .ok ⟨cacheSize, [], [], []⟩

/-- `LruCache::get`: on a hit return the entry and move it to the front
(mark it most recently used); on a miss leave the cache unchanged. -/
def lruGet (c : List (Cid × List Nat)) (k : Cid) :
    Option (List Nat) × List (Cid × List Nat) :=
  match c.find? (fun p => p.1 == k) with
  | none => (none, c)
  | some p => (some p.2, p :: c.filter (fun q => q.1 != k))

/-- `LruCache::put`: insert the entry at the front as most recently used
(replacing any previous entry for the key) and evict the least recently used
entry if the capacity is exceeded. -/
def lruPut (cap : Nat) (c : List (Cid × List Nat)) (k : Cid) (v : List Nat) :
    List (Cid × List Nat) :=
  ((k, v) :: c.filter (fun q => q.1 != k)).take cap

/-- `CidLoader::load_cid for Cached`: serve from the LRU cache, otherwise
fetch from the client and insert the result on success. -/
def load_cid (env : KuboEnv) (s : CacheState) (cid : Cid) :
    Except Unit (List Nat) × CacheState :=
  match lruGet s.cache cid with
  | (some data, cache2) => (.ok data, { s with cache := cache2 })
  | (none, _) =>
    let s := { s with remoteFetches := s.remoteFetches ++ [cid] }
    match env.clientLoadCid cid with
    | .ok data => (.ok data, { s with cache := lruPut s.cap s.cache cid data })
    | .error e => (.error e, s)

/-- `BlockUploader::block_upload for Cached`: put into the cache
unconditionally, then try to enqueue a `BlockUpload` task; an enqueue
failure is logged and swallowed, the call still succeeds. -/
def block_upload (env : KuboEnv) (s : CacheState) (cid : Cid) (block : List Nat) :
    Except Unit Unit × CacheState :=
  let s := { s with cache := lruPut s.cap s.cache cid block }
  let s :=
    if env.insertTaskOk cid then
      { s with queueTasks := s.queueTasks ++ [(cid, block)] }
    else s
  (.ok (), s)

/-- C8: after `block_upload(cid, block)` a `load_cid(cid)` returns `block`
with no remote fetch; `block_upload` itself always returns success (also
when the task enqueue fails), performs no remote fetch, and the entry is in
the cache afterwards.  The capacity hypothesis holds for every cache built
by `cachedNew`. -/
theorem block_upload_then_load_cid (env : KuboEnv) (s : CacheState) (cid : Cid)
    (block : List Nat) (hcap : 1 ≤ s.cap) :
    (block_upload env s cid block).1 = .ok () ∧
    (block_upload env s cid block).2.remoteFetches = s.remoteFetches ∧
    lruGet (block_upload env s cid block).2.cache cid =
      (some block, (block_upload env s cid block).2.cache) ∧
    (load_cid env (block_upload env s cid block).2 cid).1 = .ok block ∧
    (load_cid env (block_upload env s cid block).2 cid).2.remoteFetches =
      (block_upload env s cid block).2.remoteFetches := by
  rcases s with ⟨cap, cache, queue, fetches⟩
  rcases cap with _ | n
  · exact absurd hcap (by simp)
  · rcases hins : env.insertTaskOk cid with _ | _ <;>
      simp [block_upload, load_cid, lruGet, lruPut, hins, List.filter_filter] <;>
      · intro a b hmem
        have h2 := List.mem_of_mem_take hmem
        simp only [List.mem_filter, bne_iff_ne, ne_eq, decide_eq_true_eq] at h2
        exact h2.2

/-- Concrete kubo environment for the witness: the remote always fails and
the queue always rejects the task, so a successful read can only come from
the cache and `block_upload` succeeds despite the enqueue failure. -/
def envK : KuboEnv := ⟨fun _ => .error (), fun _ => false⟩

theorem block_upload_then_load_cid_witness :
    (block_upload envK ⟨1, [], [], []⟩ 5 [1, 2]).1 = .ok () ∧
    (load_cid envK (block_upload envK ⟨1, [], [], []⟩ 5 [1, 2]).2 5).1 = .ok [1, 2] ∧
    (load_cid envK (block_upload envK ⟨1, [], [], []⟩ 5 [1, 2]).2 5).2.remoteFetches
      = [] := by
  have h := block_upload_then_load_cid envK ⟨1, [], [], []⟩ 5 [1, 2] (by decide)
  exact ⟨h.1, h.2.2.2.1, by rw [h.2.2.2.2, h.2.1]⟩

/-- Collaborator of `CachedStreamLoader` (`ceramic/src/stream/operator.rs`):
the wrapped inner `StreamLoader`. -/
structure OperatorEnv where
  innerLoadState : Nat → StreamIdM → Option Cid → Except Unit StreamState

/-- The cache key `stream_id.to_string()`: a faithful stand-in, injective in
the stream identifier. -/
def streamIdKey (sid : StreamIdM) : Nat × Nat := (sid.ty, sid.cid)

/-- The `CachedStreamLoader` state: its `HashMap<String, StreamState>`. -/
structure CachedStreamLoader where
  cache : List ((Nat × Nat) × StreamState)
deriving DecidableEq, Repr

/-- `HashMap::get` over the association-list model of the cache map. -/
def cacheGet (c : List ((Nat × Nat) × StreamState)) (k : Nat × Nat) :
    Option StreamState :=
  (c.find? (fun p => p.1 == k)).map (fun p => p.2)

/-- `CachedStreamLoader::load_stream_state`: return a cached copy on a hit;
on a miss delegate to the inner loader and return its result.  The returned
`Bool` records whether the inner loader was invoked; the returned
`CachedStreamLoader` is the cache map after the call (the source has a
`TODO: insert data into cache` and performs no write-back). -/
def CachedStreamLoader.load_stream_state (env : OperatorEnv) (c : CachedStreamLoader)
    (ceramic : Nat) (sid : StreamIdM) (tip : Option Cid) :
    Except Unit StreamState × CachedStreamLoader × Bool :=
  match cacheGet c.cache (streamIdKey sid) with
  | some stream => (.ok stream, c, false)
  | none => (env.innerLoadState ceramic sid tip, c, true)

/-- C9: on a cache miss `load_stream_state` delegates to the inner loader,
returns its result unchanged, and leaves the cache map exactly as it was —
no write-back ever happens, so the memoization is ineffective beyond
dispatching to the inner loader. -/
theorem cached_stream_loader_no_write_back (env : OperatorEnv)
    (c : CachedStreamLoader) (ceramic : Nat) (sid : StreamIdM) (tip : Option Cid)
    (h : cacheGet c.cache (streamIdKey sid) = none) :
    (CachedStreamLoader.load_stream_state env c ceramic sid tip).1 =
      env.innerLoadState ceramic sid tip ∧
    (CachedStreamLoader.load_stream_state env c ceramic sid tip).2.1 = c ∧
    (CachedStreamLoader.load_stream_state env c ceramic sid tip).2.2 = true := by
  simp [CachedStreamLoader.load_stream_state, h]

theorem cached_stream_loader_no_write_back_witness :
    (CachedStreamLoader.load_stream_state ⟨fun _ _ _ => .ok ⟨none, [], 42⟩⟩ ⟨[]⟩
      7 ⟨3, 1⟩ none).1 = .ok ⟨none, [], 42⟩ ∧
    (CachedStreamLoader.load_stream_state ⟨fun _ _ _ => .ok ⟨none, [], 42⟩⟩ ⟨[]⟩
      7 ⟨3, 1⟩ none).2.1 = ⟨[]⟩ ∧
    (CachedStreamLoader.load_stream_state ⟨fun _ _ _ => .ok ⟨none, [], 42⟩⟩ ⟨[]⟩
      7 ⟨3, 1⟩ none).2.2 = true := by
  have h := cached_stream_loader_no_write_back ⟨fun _ _ _ => .ok ⟨none, [], 42⟩⟩ ⟨[]⟩
    7 ⟨3, 1⟩ none rfl
  exact h

/-- `file/status.rs` statuses used by the resolution code. -/
inductive Status where
  | ok
  | nakedStream
  | brokenContent
  | brokenFolder
deriving DecidableEq, Repr

/-- `dataverse_core::store::dapp::Model`: a registry entry. -/
structure Model where
  id : StreamIdM
  name : String
  dappId : Nat
deriving DecidableEq, Repr

/-- `IndexFile`: an index record; its `content_id` points at the content
stream. -/
structure IndexFile where
  contentId : String
deriving DecidableEq, Repr

/-- Decoded folder options: the declared signal set. -/
structure FolderOptions where
  signals : List Json
deriving DecidableEq, Repr

/-- `IndexFolder` as consumed by `load_files`: the results of its `options()`
and `access_control()` methods (both defined outside `client.rs`) are
carried as data. -/
structure IndexFolderV where
  optionsR : Except Unit (Option FolderOptions)
  accessControlR : Except Unit Unit

/-- `StreamFile`: the application-facing resolved file view. -/
structure StreamFile where
  fileId : Option StreamIdM
  fileModelId : Option StreamIdM
  contentId : Option String
  file : Option Json
  content : Option Json
  status : Status
  statusDesc : Option String
deriving DecidableEq, Repr

/-- `StreamFile::write_status`: record a degraded status and its diagnostic
message on the view. -/
def writeStatus (f : StreamFile) (st : Status) (desc : String) : StreamFile :=
  { f with status := st, statusDesc := some desc }

/-- `LoadFilesOption`: caller-side filters for `load_files`. -/
inductive LoadFilesOption where
  | signal (v : Json)
  | none

/-- Collaborators of the file-system `Client` (registry lookups, the stream
operator, the `StreamFile` constructors and writers, the serde decoders). -/
structure FileEnv where
  getDappCeramic : Nat → Except Unit Nat
  getModel : StreamIdM → Except Unit Model
  modelCeramic : Model → Except Unit Nat
  getModelByName : Nat → String → Except Unit Model
  loadStreamState : Nat → StreamIdM → Except Unit StreamState
  loadStreamStates : Nat → Option String → StreamIdM → Except Unit (List StreamState)
  loadIndexFileByContentId : Nat → StreamIdM → String → Except Unit (StreamState × Nat)
  parseIndexFile : Json → Except Unit IndexFile
  parseIndexFolder : Json → Except Unit IndexFolderV
  parseStreamId : String → Option StreamIdM
  streamIdOf : StreamState → Except Unit StreamIdM
  sidToString : StreamIdM → String
  newWithFile : StreamState → Except Unit StreamFile
  newWithContent : StreamState → Except Unit StreamFile
  writeContent : StreamFile → StreamState → Except Unit StreamFile
  writeFile : StreamFile → StreamState → Except Unit StreamFile

/-- The `"indexFile"` arm of `load_files`: a `?` on the index-record decode
or on the content-stream load aborts the whole batch; only a `write_content`
failure degrades the single item to `BrokenContent`. -/
def loadFilesIndexFile (env : FileEnv) (ceramic : Nat) :
    List StreamState → Except Unit (List StreamFile)
  | [] => .ok []
  | state :: rest => do
    let indexFile ← env.parseIndexFile state.content
    let file ← env.newWithFile state
    let file := { file with contentId := some indexFile.contentId }
    let file ←
      match env.parseStreamId indexFile.contentId with
      | some sid => do
        let contentState ← env.loadStreamState ceramic sid
        match env.writeContent file contentState with
        | .error _ =>
          pure (writeStatus file .brokenContent "failed load content file model")
        | .ok f => pure f
      | Option.none => pure file
    let files ← loadFilesIndexFile env ceramic rest
    .ok (file :: files)

/-- The signal payloads of the caller's `Signal` filters
(`options.iter().filter_map(...)` in the folder arm). -/
def requiredSignals (options : List LoadFilesOption) : List Json :=
  options.filterMap (fun o =>
    match o with
    | .signal v => some v
    | .none => none)

/-- `all_signals_present`: every requested signal is contained in the
folder's declared signal set (`maybe_options.map_or(false, ...)`). -/
def allSignalsPresent (options : List LoadFilesOption)
    (maybeOptions : Option FolderOptions) : Bool :=
  (requiredSignals options).all (fun signal =>
    match maybeOptions with
    | some opts => opts.signals.contains signal
    | none => false)

/-- One item of the `"indexFolder"` arm of `load_files` (the body of the
`filter_map` closure): `new_with_content` failure drops the item; a decode,
options or access-control failure keeps it with status `BrokenFolder`; a
missing requested signal drops it silently. -/
def loadFilesIndexFolderItem (env : FileEnv) (options : List LoadFilesOption)
    (state : StreamState) : Option StreamFile :=
  match env.newWithContent state with
  | .error _ => none
  | .ok file =>
    match env.parseIndexFolder state.content with
    | .error _ =>
      some (writeStatus file .brokenFolder "Failed to asset content as index_folder")
    | .ok indexFolder =>
      match indexFolder.optionsR with
      | .error _ =>
        some (writeStatus file .brokenFolder "Failed to decode folder options")
      | .ok maybeOptions =>
        match indexFolder.accessControlR with
        | .error _ => some (writeStatus file .brokenFolder "access control error")
        | .ok _ =>
          if !(allSignalsPresent options maybeOptions) then none
          else some file

/-- The `"indexFolder"` arm of `load_files`. -/
def loadFilesIndexFolder (env : FileEnv) (options : List LoadFilesOption)
    (states : List StreamState) : List StreamFile :=
  states.filterMap (loadFilesIndexFolderItem env options)

/-- Association-list upsert standing in for `HashMap::insert`. -/
def mapInsert (m : List (String × StreamFile)) (k : String) (v : StreamFile) :
    List (String × StreamFile) :=
  (k, v) :: m.filter (fun p => p.1 != k)

/-- Association-list update standing in for `HashMap::get_mut`. -/
def mapAdjust (m : List (String × StreamFile)) (k : String)
    (f : StreamFile → StreamFile) : List (String × StreamFile) :=
  m.map (fun p => if p.1 == k then (p.1, f p.2) else p)

/-- The default (reverse-join) arm of `load_files`. -/
def loadFilesDefault (env : FileEnv) (ceramic appId : Nat) (account : Option String)
    (states : List StreamState) : Except Unit (List StreamFile) := do
  let modelIndexFile ← env.getModelByName appId "indexFile"
  let fileQueryEdges ← env.loadStreamStates ceramic account modelIndexFile.id
  let fileMap ← states.foldlM (fun (m : List (String × StreamFile)) state => do
    let contentId ← env.streamIdOf state
    let file ← env.newWithContent state
    pure (mapInsert m (env.sidToString contentId) file)) []
  let fileMap ← fileQueryEdges.foldlM (fun (m : List (String × StreamFile)) node => do
    match env.parseIndexFile node.content with
    | .ok indexFile =>
      if (m.find? (fun p => p.1 == indexFile.contentId)).isSome then do
        let nodeId ← env.streamIdOf node
        pure (mapAdjust m indexFile.contentId (fun f =>
          { f with fileModelId := some modelIndexFile.id,
                   fileId := some nodeId,
                   file := some node.content }))
      else pure m
    | .error _ => pure m) fileMap
  .ok (fileMap.map (fun p =>
    if p.2.fileId.isNone then
      match p.2.contentId with
      | some contentId =>
        writeStatus p.2 .nakedStream ("file_id is None, content_id: " ++ contentId)
      | Option.none => p.2
    else p.2))

/-- `Client::load_files` of `file-system/src/file/client.rs`. -/
def load_files (env : FileEnv) (account : Option String) (modelId : StreamIdM)
    (options : List LoadFilesOption) : Except Unit (List StreamFile) := do
  let model ← env.getModel modelId
  let appId := model.dappId
  let ceramic ← env.modelCeramic model
  let streamStates ← env.loadStreamStates ceramic account modelId
  match model.name with
  | "indexFile" => loadFilesIndexFile env ceramic streamStates
  | "actionFile" => streamStates.mapM env.newWithFile
  | "indexFolder" => .ok (loadFilesIndexFolder env options streamStates)
  | "contentFolder" => streamStates.mapM env.newWithContent
  | _ => loadFilesDefault env ceramic appId account streamStates

/-- The distinct failure exits of `load_file` (each `?` / `bail!` site). -/
inductive LoadFileError where
  | ceramicErr
  | loadStateErr
  | mustModelErr
  | getModelErr
  | notBelongToDapp
  | decodeErr
  | newFileErr
  | contentLoadErr
  | writeContentErr
  | newContentErr
  | modelLookupErr
  | writeFileErr
deriving DecidableEq, Repr

/-- `Client::load_file` of `file-system/src/file/client.rs`. -/
def load_file (env : FileEnv) (dappId : Nat) (streamId : StreamIdM) :
    Except LoadFileError StreamFile :=
  match env.getDappCeramic dappId with
  | .error _ => .error .ceramicErr
  | .ok ceramic =>
    match env.loadStreamState ceramic streamId with
    | .error _ => .error .loadStateErr
    | .ok streamState =>
      match streamState.model with
      | none => .error .mustModelErr
      | some modelId =>
        match env.getModel modelId with
        | .error _ => .error .getModelErr
        | .ok model =>
          if model.dappId ≠ dappId then .error .notBelongToDapp
          else
            match model.name with
            | "indexFile" =>
              match env.parseIndexFile streamState.content with
              | .error _ => .error .decodeErr
              | .ok indexFile =>
                match env.newWithFile streamState with
                | .error _ => .error .newFileErr
                | .ok file =>
                  match env.parseStreamId indexFile.contentId with
                  | some contentId =>
                    match env.loadStreamState ceramic contentId with
                    | .error _ => .error .contentLoadErr
                    | .ok contentState =>
                      match env.writeContent file contentState with
                      | .error _ => .error .writeContentErr
                      | .ok file2 => .ok file2
                  | Option.none => .ok file
            | "actionFile" =>
              (env.newWithFile streamState).mapError (fun _ => .newFileErr)
            | "indexFolder" =>
              (env.newWithContent streamState).mapError (fun _ => .newContentErr)
            | "contentFolder" =>
              (env.newWithContent streamState).mapError (fun _ => .newContentErr)
            | _ =>
              match env.newWithContent streamState with
              | .error _ => .error .newContentErr
              | .ok file =>
                match env.getModelByName dappId "indexFile" with
                | .error _ => .error .modelLookupErr
                | .ok m =>
                  match env.loadIndexFileByContentId ceramic m.id
                      (env.sidToString streamId) with
                  | .ok (fileState, _) =>
                    match env.writeFile file fileState with
                    | .error _ => .error .writeFileErr
                    | .ok f2 => .ok f2
                  | .error _ =>
                    .ok (writeStatus file .nakedStream "failed load index file model")

/-- C10: when the stream state loads and its model resolves, but the
resolved model belongs to a different dapp than the one requested,
`load_file` fails with the not-belong-to-dapp rejection instead of
returning a resolved view. -/
theorem load_file_cross_dapp_guard (env : FileEnv) (dappId ceramic : Nat)
    (streamId modelId : StreamIdM) (streamState : StreamState) (model : Model)
    (hc : env.getDappCeramic dappId = .ok ceramic)
    (hs : env.loadStreamState ceramic streamId = .ok streamState)
    (hm : streamState.model = some modelId)
    (hg : env.getModel modelId = .ok model)
    (hneq : model.dappId ≠ dappId) :
    load_file env dappId streamId = .error .notBelongToDapp := by
  simp [load_file, hc, hs, hm, hg, hneq]

/-- Environment for the C10 witness: the stream resolves to a model owned by
dapp 99, queried as dapp 0. -/
def envF10 : FileEnv where
  getDappCeramic := fun _ => .ok 7
  getModel := fun _ => .ok ⟨⟨2, 5⟩, "indexFile", 99⟩
  modelCeramic := fun _ => .ok 7
  getModelByName := fun _ _ => .error ()
  loadStreamState := fun _ _ => .ok ⟨some ⟨2, 5⟩, [], 11⟩
  loadStreamStates := fun _ _ _ => .ok []
  loadIndexFileByContentId := fun _ _ _ => .error ()
  parseIndexFile := fun _ => .error ()
  parseIndexFolder := fun _ => .error ()
  parseStreamId := fun _ => none
  streamIdOf := fun _ => .error ()
  sidToString := fun _ => ""
  newWithFile := fun _ => .error ()
  newWithContent := fun _ => .error ()
  writeContent := fun _ _ => .error ()
  writeFile := fun _ _ => .error ()

theorem load_file_cross_dapp_guard_witness :
    load_file envF10 0 ⟨3, 1⟩ = .error .notBelongToDapp :=
  load_file_cross_dapp_guard envF10 0 7 ⟨3, 1⟩ ⟨2, 5⟩ ⟨some ⟨2, 5⟩, [], 11⟩
    ⟨⟨2, 5⟩, "indexFile", 99⟩ rfl rfl rfl rfl (by decide)

/-- Environment for the C6 counterexample: one `indexFile` stream state whose
content does not decode as an index record. -/
def envC6 : FileEnv where
  getDappCeramic := fun _ => .ok 7
  getModel := fun _ => .ok ⟨⟨2, 5⟩, "indexFile", 0⟩
  modelCeramic := fun _ => .ok 7
  getModelByName := fun _ _ => .error ()
  loadStreamState := fun _ _ => .error ()
  loadStreamStates := fun _ _ _ => .ok [⟨none, [], 11⟩]
  loadIndexFileByContentId := fun _ _ _ => .error ()
  parseIndexFile := fun _ => .error ()
  parseIndexFolder := fun _ => .error ()
  parseStreamId := fun _ => none
  streamIdOf := fun _ => .error ()
  sidToString := fun _ => ""
  newWithFile := fun _ => .ok ⟨none, none, none, none, none, .ok, none⟩
  newWithContent := fun _ => .error ()
  writeContent := fun _ _ => .error ()
  writeFile := fun _ _ => .error ()

/-- C6 counterexample: in an `indexFile` batch of one item whose index record
fails to decode, `load_files` aborts with an error instead of returning a
full result sequence with that item degraded — refuting the claim that every
per-item content-resolution failure only degrades the single item. -/
theorem load_files_index_file_decode_aborts :
    load_files envC6 none ⟨2, 5⟩ [] = .error () := by
  rfl

theorem eBindOk {α β : Type} (a : α) (f : α → Except Unit β) :
    ((Except.ok a : Except Unit α) >>= f) = f a := rfl

theorem eBindErr {α β : Type} (e : Unit) (f : α → Except Unit β) :
    ((Except.error e : Except Unit α) >>= f) = Except.error e := rfl

/-- C6 amended: for an `indexFile` batch, (a) `load_files` dispatches to the
per-item loop; (b) only a `write_content` (content attach) failure degrades
the single item to `BrokenContent` while the rest of the batch is still
processed; (c) a failure to decode an item's index record aborts the whole
batch with an error; (d) a failure to load an item's referenced content
stream aborts the whole batch with an error. -/
theorem load_files_index_file_behavior :
    (∀ (env : FileEnv) (account : Option String) (modelId : StreamIdM)
        (options : List LoadFilesOption) (model : Model) (ceramic : Nat)
        (states : List StreamState),
      env.getModel modelId = .ok model →
      model.name = "indexFile" →
      env.modelCeramic model = .ok ceramic →
      env.loadStreamStates ceramic account modelId = .ok states →
      load_files env account modelId options = loadFilesIndexFile env ceramic states) ∧
    (∀ (env : FileEnv) (ceramic : Nat) (state : StreamState) (rest : List StreamState)
        (ixf : IndexFile) (file : StreamFile) (sid : StreamIdM) (cstate : StreamState),
      env.parseIndexFile state.content = .ok ixf →
      env.newWithFile state = .ok file →
      env.parseStreamId ixf.contentId = some sid →
      env.loadStreamState ceramic sid = .ok cstate →
      env.writeContent { file with contentId := some ixf.contentId } cstate = .error () →
      loadFilesIndexFile env ceramic (state :: rest) =
        Except.map
          (fun files =>
            writeStatus { file with contentId := some ixf.contentId } .brokenContent
              "failed load content file model" :: files)
          (loadFilesIndexFile env ceramic rest)) ∧
    (∀ (env : FileEnv) (ceramic : Nat) (state : StreamState) (rest : List StreamState),
      env.parseIndexFile state.content = .error () →
      loadFilesIndexFile env ceramic (state :: rest) = .error ()) ∧
    (∀ (env : FileEnv) (ceramic : Nat) (state : StreamState) (rest : List StreamState)
        (ixf : IndexFile) (file : StreamFile) (sid : StreamIdM),
      env.parseIndexFile state.content = .ok ixf →
      env.newWithFile state = .ok file →
      env.parseStreamId ixf.contentId = some sid →
      env.loadStreamState ceramic sid = .error () →
      loadFilesIndexFile env ceramic (state :: rest) = .error ()) := by
  refine ⟨?_, ?_, ?_, ?_⟩
  · intro env account modelId options model ceramic states hm hn hc hs
    simp only [load_files, hm, hn, hc, hs, eBindOk]
  · intro env ceramic state rest ixf file sid cstate hp hf hid hload hw
    simp only [loadFilesIndexFile, hp, hf, hid, hload, hw, eBindOk]
    rcases h : loadFilesIndexFile env ceramic rest with e | files <;>
      simp [h, eBindOk, eBindErr, Except.map]
  · intro env ceramic state rest hp
    simp only [loadFilesIndexFile, hp, eBindErr]
  · intro env ceramic state rest ixf file sid hp hf hid hload
    simp only [loadFilesIndexFile, hp, hf, hid, hload, eBindOk, eBindErr]

/-- Environment for the C6 amended-claim witness: the single item's index
record decodes, its content stream loads, but attaching the content fails. -/
def envC6b : FileEnv where
  getDappCeramic := fun _ => .ok 7
  getModel := fun _ => .ok ⟨⟨2, 5⟩, "indexFile", 0⟩
  modelCeramic := fun _ => .ok 7
  getModelByName := fun _ _ => .error ()
  loadStreamState := fun _ _ => .ok ⟨none, [], 12⟩
  loadStreamStates := fun _ _ _ => .ok [⟨none, [], 11⟩]
  loadIndexFileByContentId := fun _ _ _ => .error ()
  parseIndexFile := fun _ => .ok ⟨"cid8"⟩
  parseIndexFolder := fun _ => .error ()
  parseStreamId := fun _ => some ⟨0, 8⟩
  streamIdOf := fun _ => .error ()
  sidToString := fun _ => ""
  newWithFile := fun _ => .ok ⟨none, none, none, none, none, .ok, none⟩
  newWithContent := fun _ => .error ()
  writeContent := fun _ _ => .error ()
  writeFile := fun _ _ => .error ()

/-- `envC6b` with a content-stream load that fails. -/
def envC6c : FileEnv := { envC6b with loadStreamState := fun _ _ => .error () }

theorem load_files_index_file_behavior_witness :
    load_files envC6b none ⟨2, 5⟩ [] = loadFilesIndexFile envC6b 7 [⟨none, [], 11⟩] ∧
    loadFilesIndexFile envC6b 7 [⟨none, [], 11⟩] =
      .ok [writeStatus ⟨none, none, some "cid8", none, none, .ok, none⟩ .brokenContent
        "failed load content file model"] ∧
    loadFilesIndexFile envC6 7 [⟨none, [], 11⟩] = .error () ∧
    loadFilesIndexFile envC6c 7 [⟨none, [], 11⟩] = .error () := by
  have hd := load_files_index_file_behavior.1 envC6b none ⟨2, 5⟩ []
    ⟨⟨2, 5⟩, "indexFile", 0⟩ 7 [⟨none, [], 11⟩] rfl rfl rfl rfl
  have ha := load_files_index_file_behavior.2.1 envC6b 7 ⟨none, [], 11⟩ []
    ⟨"cid8"⟩ ⟨none, none, none, none, none, .ok, none⟩ ⟨0, 8⟩ ⟨none, [], 12⟩
    rfl rfl rfl rfl rfl
  have hp := load_files_index_file_behavior.2.2.1 envC6 7 ⟨none, [], 11⟩ [] rfl
  have hl := load_files_index_file_behavior.2.2.2 envC6c 7 ⟨none, [], 11⟩ []
    ⟨"cid8"⟩ ⟨none, none, none, none, none, .ok, none⟩ ⟨0, 8⟩ rfl rfl rfl rfl
  refine ⟨hd, ?_, hp, hl⟩
  simpa [writeStatus, Except.map] using ha

/-- C7: for an `indexFolder` batch, (a) `load_files` dispatches to the
filter-map; (b) a folder whose declared signal set contains every requested
`Signal` filter is kept; (c) a folder missing at least one requested signal
is silently dropped (not marked broken); (d)-(f) a folder whose content
fails to decode as an index folder, whose options fail to decode, or whose
access control evaluation fails, is kept with status `BrokenFolder` and a
diagnostic message; (g) every kept item appears in the batch result. -/
theorem load_files_index_folder_behavior :
    (∀ (env : FileEnv) (account : Option String) (modelId : StreamIdM)
        (options : List LoadFilesOption) (model : Model) (ceramic : Nat)
        (states : List StreamState),
      env.getModel modelId = .ok model →
      model.name = "indexFolder" →
      env.modelCeramic model = .ok ceramic →
      env.loadStreamStates ceramic account modelId = .ok states →
      load_files env account modelId options =
        .ok (loadFilesIndexFolder env options states)) ∧
    (∀ (env : FileEnv) (options : List LoadFilesOption) (state : StreamState)
        (file : StreamFile) (folder : IndexFolderV) (maybeOpts : Option FolderOptions),
      env.newWithContent state = .ok file →
      env.parseIndexFolder state.content = .ok folder →
      folder.optionsR = .ok maybeOpts →
      folder.accessControlR = .ok () →
      allSignalsPresent options maybeOpts = true →
      loadFilesIndexFolderItem env options state = some file) ∧
    (∀ (env : FileEnv) (options : List LoadFilesOption) (state : StreamState)
        (file : StreamFile) (folder : IndexFolderV) (maybeOpts : Option FolderOptions),
      env.newWithContent state = .ok file →
      env.parseIndexFolder state.content = .ok folder →
      folder.optionsR = .ok maybeOpts →
      folder.accessControlR = .ok () →
      allSignalsPresent options maybeOpts = false →
      loadFilesIndexFolderItem env options state = none) ∧
    (∀ (env : FileEnv) (options : List LoadFilesOption) (state : StreamState)
        (file : StreamFile),
      env.newWithContent state = .ok file →
      env.parseIndexFolder state.content = .error () →
      loadFilesIndexFolderItem env options state =
        some (writeStatus file .brokenFolder
          "Failed to asset content as index_folder")) ∧
    (∀ (env : FileEnv) (options : List LoadFilesOption) (state : StreamState)
        (file : StreamFile) (folder : IndexFolderV),
      env.newWithContent state = .ok file →
      env.parseIndexFolder state.content = .ok folder →
      folder.optionsR = .error () →
      loadFilesIndexFolderItem env options state =
        some (writeStatus file .brokenFolder "Failed to decode folder options")) ∧
    (∀ (env : FileEnv) (options : List LoadFilesOption) (state : StreamState)
        (file : StreamFile) (folder : IndexFolderV) (maybeOpts : Option FolderOptions),
      env.newWithContent state = .ok file →
      env.parseIndexFolder state.content = .ok folder →
      folder.optionsR = .ok maybeOpts →
      folder.accessControlR = .error () →
      loadFilesIndexFolderItem env options state =
        some (writeStatus file .brokenFolder "access control error")) ∧
    (∀ (env : FileEnv) (options : List LoadFilesOption) (states : List StreamState)
        (state : StreamState) (f : StreamFile),
      state ∈ states →
      loadFilesIndexFolderItem env options state = some f →
      f ∈ loadFilesIndexFolder env options states) := by
  refine ⟨?_, ?_, ?_, ?_, ?_, ?_, ?_⟩
  · intro env account modelId options model ceramic states hm hn hc hs
    simp only [load_files, hm, hn, hc, hs, eBindOk]
  · intro env options state file folder maybeOpts h1 h2 h3 h4 h5
    simp [loadFilesIndexFolderItem, h1, h2, h3, h4, h5]
  · intro env options state file folder maybeOpts h1 h2 h3 h4 h5
    simp [loadFilesIndexFolderItem, h1, h2, h3, h4, h5]
  · intro env options state file h1 h2
    simp [loadFilesIndexFolderItem, h1, h2]
  · intro env options state file folder h1 h2 h3
    simp [loadFilesIndexFolderItem, h1, h2, h3]
  · intro env options state file folder maybeOpts h1 h2 h3 h4
    simp [loadFilesIndexFolderItem, h1, h2, h3, h4]
  · intro env options states state f hmem hitem
    simp only [loadFilesIndexFolder, List.mem_filterMap]
    exact ⟨state, hmem, hitem⟩

/-- Environment for the C7 witness: three folders — content 1 declares
signals `[1, 2]`, content 2 declares `[9]`, content 3 does not decode. -/
def envC7 : FileEnv where
  getDappCeramic := fun _ => .ok 7
  getModel := fun _ => .ok ⟨⟨2, 5⟩, "indexFolder", 0⟩
  modelCeramic := fun _ => .ok 7
  getModelByName := fun _ _ => .error ()
  loadStreamState := fun _ _ => .error ()
  loadStreamStates := fun _ _ _ => .ok [⟨none, [], 1⟩, ⟨none, [], 2⟩, ⟨none, [], 3⟩]
  loadIndexFileByContentId := fun _ _ _ => .error ()
  parseIndexFile := fun _ => .error ()
  parseIndexFolder := fun content =>
    if content = 3 then .error ()
    else if content = 1 then .ok ⟨.ok (some ⟨[1, 2]⟩), .ok ()⟩
    else .ok ⟨.ok (some ⟨[9]⟩), .ok ()⟩
  parseStreamId := fun _ => none
  streamIdOf := fun _ => .error ()
  sidToString := fun _ => ""
  newWithFile := fun _ => .error ()
  newWithContent := fun state => .ok ⟨none, none, none, none, some state.content, .ok, none⟩
  writeContent := fun _ _ => .error ()
  writeFile := fun _ _ => .error ()

theorem load_files_index_folder_behavior_witness :
    load_files envC7 none ⟨2, 5⟩ [LoadFilesOption.signal 1, LoadFilesOption.signal 2] =
      .ok (loadFilesIndexFolder envC7 [LoadFilesOption.signal 1, LoadFilesOption.signal 2]
        [⟨none, [], 1⟩, ⟨none, [], 2⟩, ⟨none, [], 3⟩]) ∧
    loadFilesIndexFolderItem envC7 [LoadFilesOption.signal 1, LoadFilesOption.signal 2]
      ⟨none, [], 1⟩ = some ⟨none, none, none, none, some 1, .ok, none⟩ ∧
    loadFilesIndexFolderItem envC7 [LoadFilesOption.signal 1, LoadFilesOption.signal 2]
      ⟨none, [], 2⟩ = none ∧
    loadFilesIndexFolderItem envC7 [LoadFilesOption.signal 1, LoadFilesOption.signal 2]
      ⟨none, [], 3⟩ = some (writeStatus ⟨none, none, none, none, some 3, .ok, none⟩
        .brokenFolder "Failed to asset content as index_folder") ∧
    (⟨none, none, none, none, some 1, .ok, none⟩ : StreamFile) ∈
      loadFilesIndexFolder envC7 [LoadFilesOption.signal 1, LoadFilesOption.signal 2]
        [⟨none, [], 1⟩, ⟨none, [], 2⟩, ⟨none, [], 3⟩] := by
  have hd := load_files_index_folder_behavior.1 envC7 none ⟨2, 5⟩
    [LoadFilesOption.signal 1, LoadFilesOption.signal 2]
    ⟨⟨2, 5⟩, "indexFolder", 0⟩ 7 [⟨none, [], 1⟩, ⟨none, [], 2⟩, ⟨none, [], 3⟩]
    rfl rfl rfl rfl
  have h1 := load_files_index_folder_behavior.2.1 envC7
    [LoadFilesOption.signal 1, LoadFilesOption.signal 2] ⟨none, [], 1⟩
    ⟨none, none, none, none, some 1, .ok, none⟩ ⟨.ok (some ⟨[1, 2]⟩), .ok ()⟩
    (some ⟨[1, 2]⟩) rfl rfl rfl rfl (by decide)
  have h2 := load_files_index_folder_behavior.2.2.1 envC7
    [LoadFilesOption.signal 1, LoadFilesOption.signal 2] ⟨none, [], 2⟩
    ⟨none, none, none, none, some 2, .ok, none⟩ ⟨.ok (some ⟨[9]⟩), .ok ()⟩
    (some ⟨[9]⟩) rfl rfl rfl rfl (by decide)
  have h3 := load_files_index_folder_behavior.2.2.2.1 envC7
    [LoadFilesOption.signal 1, LoadFilesOption.signal 2] ⟨none, [], 3⟩
    ⟨none, none, none, none, some 3, .ok, none⟩ rfl rfl
  have hmem := load_files_index_folder_behavior.2.2.2.2.2.2 envC7
    [LoadFilesOption.signal 1, LoadFilesOption.signal 2]
    [⟨none, [], 1⟩, ⟨none, [], 2⟩, ⟨none, [], 3⟩] ⟨none, [], 1⟩
    ⟨none, none, none, none, some 1, .ok, none⟩ (by simp) h1
  exact ⟨hd, h1, h2, h3, hmem⟩
